import Mathlib

/-!
# Verification of the wellness data pipeline

Shallow embedding of the metric-derivation pipeline of the `wellnesstest`
repository: value coercion and sleep-duration parsing (`utils/data_loader.py`),
readiness scoring (`components/readiness.py`), trend detection
(`components/trends.py`), date-cohort z-scoring (`components/zscores.py`),
column reconciliation (`utils/data_loader.py`), and the risk assessment
(`utils/ai_insights.py`).

Conventions of the embedding:
* A pandas DataFrame is a `Table`: an ordered list of column labels plus a
  list of rows, each row a list of `Cell`s positionally aligned with the
  labels.  `Cell.null` stands for both Python `None` and float `NaN`
  (pandas treats both as missing).
* Machine floats are embedded as `ℚ`.  `np.sqrt` is embedded as `ratSqrt`,
  which agrees with the real square root whenever the radicand is the square
  of a rational — the only inputs at which the theorems below evaluate it.
* Fallible Python code (`try`/`except`, KeyError) returns `Option`.
-/

section

attribute [local semireducible] Rat.add Rat.mul Rat.sub Rat.inv Rat.ofScientific

/-- One DataFrame cell: missing (`None`/`NaN`), numeric, or text. -/
inductive Cell where
  | null : Cell
  | num : ℚ → Cell
  | str : String → Cell
deriving DecidableEq, Repr

/-- A DataFrame: ordered column labels and rows of positionally aligned cells. -/
structure Table where
  cols : List String
  rows : List (List Cell)
deriving DecidableEq, Repr

/-- Index of a column label (first occurrence), as pandas label lookup does. -/
def colIdx (t : Table) (c : String) : Option Nat :=
  t.cols.findIdx? (fun s => s == c)

/-- The cell of a row at an optional column index; `null` when out of range. -/
def rowCell (r : List Cell) (i : Option Nat) : Cell :=
  match i with
  | some i => r.getD i Cell.null
  | none => Cell.null

/-- Numeric view of a cell (`NaN`/text are not numbers). -/
def cellNum : Cell → Option ℚ
  | Cell.num q => some q
  | _ => none

/-- Append a value to each row (column assignment for a fresh label). -/
def appendColCells (rows : List (List Cell)) (vals : List Cell) : List (List Cell) :=
  List.zipWith (fun r v => r ++ [v]) rows vals

/-- `df[c] = vals`: overwrite the column in place when the label exists,
otherwise append it on the right, as pandas column assignment does. -/
def setCol (t : Table) (c : String) (vals : List Cell) : Table :=
  match t.cols.findIdx? (fun s => s == c) with
  | some i => ⟨t.cols, List.zipWith (fun r v => r.set i v) t.rows vals⟩
  | none => ⟨t.cols ++ [c], appendColCells t.rows vals⟩

/-- Remove from a row the cells sitting under any of the given labels. -/
def dropColsRow (cols : List String) (names : List String) (r : List Cell) : List Cell :=
  ((cols.zip r).filter (fun p => !(names.contains p.1))).map Prod.snd

/-- `df.drop(names, axis=1)`: remove every column carrying one of the labels. -/
def dropCols (t : Table) (names : List String) : Table :=
  ⟨t.cols.filter (fun c => !(names.contains c)), t.rows.map (dropColsRow t.cols names)⟩

/-- The cells of a column, read through first-occurrence label lookup. -/
def getColCells (t : Table) (c : String) : List Cell :=
  match colIdx t c with
  | some i => t.rows.map (fun r => r.getD i Cell.null)
  | none => []

/-- Every row has exactly one cell per column label. -/
def wfTable (t : Table) : Prop :=
  ∀ r ∈ t.rows, r.length = t.cols.length

/-- Newton iteration for the integer square root, with explicit fuel so the
definition is structurally recursive and concrete values reduce inside the
kernel (the iteration stops as soon as it stops decreasing, long before the
fuel runs out). -/
def natSqrtIter (fuel n x : ℕ) : ℕ :=
  match fuel with
  | 0 => x
  | f + 1 =>
    let y := (x + n / x) / 2
    if x ≤ y then x else natSqrtIter f n y

/-- Integer square root (floor). -/
def natSqrt (n : ℕ) : ℕ :=
  if n ≤ 1 then n else natSqrtIter n n (n / 2 + 1)

/-- Embedding of `np.sqrt` on the rationals the pipeline produces as
variances: exact whenever the input is the square of a rational (a reduced
square has a square numerator and denominator), which is the only case the
theorems below evaluate.  Negative inputs never arise. -/
def ratSqrt (q : ℚ) : ℚ :=
  mkRat (natSqrt q.num.toNat : ℤ) (natSqrt q.den)

/-- `Series.mean()` with pandas' default `skipna=True`: mean of the non-null
numeric entries, `NaN` (here `none`) when there are none. -/
def seriesMean (vals : List Cell) : Option ℚ :=
  let xs := vals.filterMap cellNum
  if xs.length = 0 then none else some (xs.sum / (xs.length : ℚ))

/-- `Series.std()` / groupby `agg 'std'` with pandas' default `ddof=1`
(sample standard deviation), skipping nulls; `NaN` (here `none`) on fewer
than two numeric entries.  `np.sqrt` is embedded as `ratSqrt`. -/
def seriesStd (vals : List Cell) : Option ℚ :=
  let xs := vals.filterMap cellNum
  if xs.length ≤ 1 then none
  else
    let m := xs.sum / (xs.length : ℚ)
    some (ratSqrt ((xs.map (fun x => (x - m) ^ 2)).sum / ((xs.length : ℚ) - 1)))

/-- `components/readiness.py`, `calculate_readiness_score`: simple four-factor
average `(Sleep + Mood + Energy + (10 - Stress)) / 4`, `None` as soon as any
input is missing (`any(pd.isna([...]))`). -/
def calculate_readiness_score (sleep mood energy stress : Option ℚ) : Option ℚ :=
  match sleep, mood, energy, stress with
  | some s, some m, some e, some st => some ((s + m + e + (10 - st)) / 4)
  | _, _, _, _ => none

/-- C3: the simple-average readiness score equals
`(Sleep + Mood + Energy + (10 - Stress)) / 4`, is null exactly when one of the
four inputs is null, and evaluates to `7.0` at Sleep=8, Mood=6, Energy=7,
Stress=3. -/
theorem readiness_simple_average (sleep mood energy stress : Option ℚ) :
    (calculate_readiness_score sleep mood energy stress = none ↔
      sleep = none ∨ mood = none ∨ energy = none ∨ stress = none) ∧
    (∀ s m e st : ℚ, calculate_readiness_score (some s) (some m) (some e) (some st) =
      some ((s + m + e + (10 - st)) / 4)) ∧
    calculate_readiness_score (some 8) (some 6) (some 7) (some 3) = some 7 := by
  refine ⟨?_, fun s m e st => rfl, by norm_num [calculate_readiness_score]⟩
  cases sleep <;> cases mood <;> cases energy <;> cases stress <;>
    simp [calculate_readiness_score]

/-! ## Value coercion (`utils/data_loader.py`) -/

/-- Python `str.strip()` on a character list (surrounding whitespace removed). -/
def pyStripL (cs : List Char) : List Char :=
  ((cs.dropWhile Char.isWhitespace).reverse.dropWhile Char.isWhitespace).reverse

/-- Value of a decimal digit run. -/
def digitsToNat (ds : List Char) : ℕ :=
  ds.foldl (fun a c => a * 10 + (c.toNat - '0'.toNat)) 0

/-- Value of `intPart.fracPart` as a rational. -/
def decimalVal (ip fp : List Char) : ℚ :=
  (digitsToNat ip : ℚ) + (digitsToNat fp : ℚ) / (10 : ℚ) ^ fp.length

/-- Python `float(str)` on the finite decimal grammar
`[+|-] (digits[.digits*] | .digits) [(e|E)[+|-]digits]`; `none` on anything
else.  (IEEE specials `inf`/`nan` have no `ℚ` value; pandas treats `NaN` as
missing, which `none` also denotes here.) -/
def pyFloatL (cs : List Char) : Option ℚ :=
  let p := match cs with
    | '+' :: rest => ((1 : ℚ), rest)
    | '-' :: rest => ((-1 : ℚ), rest)
    | rest => ((1 : ℚ), rest)
  let sign := p.1
  let cs1 := p.2
  let ip := cs1.takeWhile Char.isDigit
  let r1 := cs1.dropWhile Char.isDigit
  let q := match r1 with
    | '.' :: rest => (rest.takeWhile Char.isDigit, rest.dropWhile Char.isDigit)
    | rest => (([] : List Char), rest)
  let fp := q.1
  let r2 := q.2
  if ip.isEmpty && fp.isEmpty then none
  else
    match r2 with
    | [] => some (sign * decimalVal ip fp)
    | e :: rest =>
      if e == 'e' || e == 'E' then
        let ep := match rest with
          | '+' :: r => ((1 : ℤ), r)
          | '-' :: r => ((-1 : ℤ), r)
          | r => ((1 : ℤ), r)
        let ed := ep.2.takeWhile Char.isDigit
        let r3 := ep.2.dropWhile Char.isDigit
        if ed.isEmpty || !r3.isEmpty then none
        else some (sign * decimalVal ip fp * (10 : ℚ) ^ (ep.1 * (digitsToNat ed : ℤ)))
      else none

/-- Python `float(str)` with its surrounding-whitespace tolerance. -/
def pyFloat (s : String) : Option ℚ :=
  pyFloatL (pyStripL s.data)

/-- Is `pat` a prefix of the second list? -/
def isPrefixL : List Char → List Char → Bool
  | [], _ => true
  | _ :: _, [] => false
  | a :: as, b :: bs => a == b && isPrefixL as bs

/-- Does `pat` occur as a contiguous substring of `h`? -/
def containsSub (h pat : List Char) : Bool :=
  match h with
  | [] => pat.isEmpty
  | c :: rest => isPrefixL pat (c :: rest) || containsSub rest pat

/-- The characters of `h` before the first occurrence of `pat`
(`h.split(pat)[0]` when `pat` occurs). -/
def takeBeforeSub (h pat : List Char) : List Char :=
  match h with
  | [] => []
  | c :: rest => if isPrefixL pat (c :: rest) then [] else c :: takeBeforeSub rest pat

/-- `utils/data_loader.py`, `clean_numeric_value`: `None` for missing input,
numbers pass through as floats, `"X/10"` takes the numerator before the first
`/`, `"X out of 10"` takes the text before `out of` (case-insensitively), then
a direct `float` parse; every failure falls through and the final fallback
returns `None` instead of raising. -/
def clean_numeric_value (value : Cell) : Option ℚ :=
  match value with
  | Cell.null => none
  | Cell.num q => some q
  | Cell.str s =>
    let cs := pyStripL s.data
    let afterSlash :=
      if cs.contains '/' then pyFloatL (pyStripL (cs.takeWhile (fun c => c != '/')))
      else none
    match afterSlash with
    | some q => some q
    | none =>
      let low := cs.map Char.toLower
      let afterOutOf :=
        if containsSub low "out of".data then
          pyFloatL (pyStripL (takeBeforeSub low "out of".data))
        else none
      match afterOutOf with
      | some q => some q
      | none => pyFloatL cs

/-- C7: numeric-rating coercion is total (the embedding returns `Option` and
has no failure path): `"N/10"`, `"N out of 10"` and `"N"` coerce to the float
`N` for every rating `N ≤ 10`, already-numeric cells pass through as floats,
and unparseable input yields null. -/
theorem clean_numeric_value_forms :
    (∀ n : ℕ, n ≤ 10 →
      clean_numeric_value (Cell.str (toString n ++ "/10")) = some n ∧
      clean_numeric_value (Cell.str (toString n ++ " out of 10")) = some n ∧
      clean_numeric_value (Cell.str (toString n)) = some n) ∧
    (∀ q : ℚ, clean_numeric_value (Cell.num q) = some q) ∧
    clean_numeric_value (Cell.str "garbage") = none ∧
    clean_numeric_value (Cell.str "") = none ∧
    clean_numeric_value Cell.null = none := by
  refine ⟨by decide, fun q => rfl, by decide, by decide, rfl⟩

/-- Witness for C7 at `N = 7`. -/
theorem clean_numeric_value_forms_witness :
    clean_numeric_value (Cell.str "7/10") = some 7 ∧
    clean_numeric_value (Cell.str "7 out of 10") = some 7 ∧
    clean_numeric_value (Cell.str "7") = some 7 :=
  clean_numeric_value_forms.1 7 (by decide)

/-! ## Sleep-duration parsing (`utils/data_loader.py`, `parse_sleep_duration`)

The three `re.search` patterns are embedded as explicit left-to-right scans.
For each of them, greedy maximal-munch matching at a position is complete:
every sub-pattern that can give characters back only exposes a digit where a
non-digit literal (`h`, `:`, `m`) is then required, so no backtracking can
turn a failure into a match, and the captured groups are uniquely determined
by the first position at which the mandatory part of the pattern matches. -/

/-- `(\d+\.?\d*)` at the start of `cs`: the numeric value and the rest.
`none` when `cs` does not begin with a digit. -/
def takeNumber (cs : List Char) : Option (ℚ × List Char) :=
  let d1 := cs.takeWhile Char.isDigit
  let r1 := cs.dropWhile Char.isDigit
  if d1.isEmpty then none
  else
    match r1 with
    | '.' :: r2 => some (decimalVal d1 (r2.takeWhile Char.isDigit), r2.dropWhile Char.isDigit)
    | _ => some (decimalVal d1 [], r1)

/-- One attempt of `(\d+\.?\d*)\s*h(?:ours?)?\s*(?:(\d+)\s*m(?:ins?|inutes?)?)?`
anchored at the start of `cs`; on success, `hours * 60 + minutes` (minutes 0
when the optional group is absent — the group requires a literal `m`). -/
def tryHoursAt (cs : List Char) : Option ℚ :=
  match takeNumber cs with
  | none => none
  | some (hours, r1) =>
    match r1.dropWhile Char.isWhitespace with
    | 'h' :: r3 =>
      let r4 := if isPrefixL "ours".data r3 then r3.drop 4
                else if isPrefixL "our".data r3 then r3.drop 3
                else r3
      let r5 := r4.dropWhile Char.isWhitespace
      let md := r5.takeWhile Char.isDigit
      let r6 := r5.dropWhile Char.isDigit
      let minutes : ℚ :=
        if md.isEmpty then 0
        else
          match r6.dropWhile Char.isWhitespace with
          | 'm' :: _ => (digitsToNat md : ℚ)
          | _ => 0
      some (hours * 60 + minutes)
    | _ => none

/-- `re.search` scan for the hours pattern. -/
def searchHours : List Char → Option ℚ
  | [] => none
  | c :: rest =>
    match tryHoursAt (c :: rest) with
    | some v => some v
    | none => searchHours rest

/-- One attempt of `(\d+):(\d+)` anchored at the start of `cs`. -/
def tryColonAt (cs : List Char) : Option ℚ :=
  let d1 := cs.takeWhile Char.isDigit
  let r1 := cs.dropWhile Char.isDigit
  if d1.isEmpty then none
  else
    match r1 with
    | ':' :: r2 =>
      let d2 := r2.takeWhile Char.isDigit
      if d2.isEmpty then none
      else some ((digitsToNat d1 : ℚ) * 60 + (digitsToNat d2 : ℚ))
    | _ => none

/-- `re.search` scan for the `H:MM` pattern. -/
def searchColon : List Char → Option ℚ
  | [] => none
  | c :: rest =>
    match tryColonAt (c :: rest) with
    | some v => some v
    | none => searchColon rest

/-- `re.search` scan for a bare number `(\d+\.?\d*)`. -/
def searchNumber : List Char → Option ℚ
  | [] => none
  | c :: rest =>
    match takeNumber (c :: rest) with
    | some (v, _) => some v
    | none => searchNumber rest

/-- `utils/data_loader.py`, `parse_sleep_duration`: lower-case and strip, then
try the hours pattern, the `H:MM` pattern, and finally a bare number — which
is taken as minutes when strictly greater than 20 and as hours otherwise
(`if hours > 20: return hours else: return hours * 60`); `None` when nothing
matches.  (`pd.isna` input is handled at the cell layer.) -/
def parse_sleep_duration (text : String) : Option ℚ :=
  let cs := pyStripL (text.data.map Char.toLower)
  match searchHours cs with
  | some v => some v
  | none =>
    match searchColon cs with
    | some v => some v
    | none =>
      match searchNumber cs with
      | some hours => if hours > 20 then some hours else some (hours * 60)
      | none => none

/-- C2 counterexample: the claim says `"7h30"` parses to 450 minutes and the
bare number `"20"` to 20 minutes; the code returns 420 for `"7h30"` (the
minutes group of the regex requires a literal `m`, so `30` is ignored) and
1200 for `"20"` (the already-minutes branch requires strictly more than 20,
and `20 * 60 = 1200`). -/
theorem parse_sleep_duration_claim_false :
    parse_sleep_duration "7h30" ≠ some 450 ∧
    parse_sleep_duration "20" ≠ some 20 ∧
    parse_sleep_duration "7h30" = some 420 ∧
    parse_sleep_duration "20" = some 1200 := by
  refine ⟨by decide, by decide, by decide, by decide⟩

/-- C2 (amended): `"7:30"` and `"7.5"` parse to 450 minutes, while `"7h30"`
parses to 420 (the minutes part of the hours pattern requires an `m` suffix:
`"7h 30m"` gives 450); a bare whole number `N` (checked for all `N ≤ 60`)
returns `N` when `N > 20` and `N * 60` when `N ≤ 20`, so `"450"` gives 450,
`"19"` gives 1140 and `"20"` gives 1200; unparseable or empty input gives
null. -/
theorem parse_sleep_duration_amended :
    parse_sleep_duration "7h30" = some 420 ∧
    parse_sleep_duration "7h 30m" = some 450 ∧
    parse_sleep_duration "7:30" = some 450 ∧
    parse_sleep_duration "7.5" = some 450 ∧
    parse_sleep_duration "450" = some 450 ∧
    (∀ n : ℕ, n ≤ 60 →
      parse_sleep_duration (toString n) =
        some (if 20 < (n : ℚ) then (n : ℚ) else (n : ℚ) * 60)) ∧
    parse_sleep_duration "" = none ∧
    parse_sleep_duration "slept fine" = none := by
  refine ⟨by decide, by decide, by decide, by decide, by decide, by decide, rfl, by decide⟩

/-- Witness for the amended C2 at the boundary inputs `19` and `20`. -/
theorem parse_sleep_duration_amended_witness :
    parse_sleep_duration "19" = some 1140 ∧ parse_sleep_duration "20" = some 1200 := by
  have h19 := parse_sleep_duration_amended.2.2.2.2.2.1 19 (by decide)
  have h20 := parse_sleep_duration_amended.2.2.2.2.2.1 20 (by decide)
  exact ⟨h19.trans (by decide), h20.trans (by decide)⟩

/-! ## Column reconciliation (`utils/data_loader.py`, `normalize_dataframe`)

Embedding of the column-label part of `normalize_dataframe`: the literal
de-duplication pass (suffixes `_1`, `_2`, …), the semantic mapping with
first-writer-wins, the verbatim pass-through of unmapped labels, and the
defensive keep-first re-check at the end of the function. -/

/-- The `column_mapping` dictionary, in insertion order. -/
def column_mapping : List (String × String) :=
  [("Timestamp", "Timestamp"), ("timestamp", "Timestamp"), ("Date", "Timestamp"),
   ("Submission Time", "Timestamp"),
   ("Athlete", "Athlete"), ("Name", "Athlete"), ("Athlete Name", "Athlete"),
   ("Your Name", "Athlete"), ("Player Name", "Athlete"),
   ("SleepText", "SleepText"), ("Sleep Text", "SleepText"), ("Sleep Duration", "SleepText"),
   ("Hours of Sleep", "SleepText"), ("Sleep Hours", "SleepText"),
   ("How did you sleep?", "Sleep"), ("Sleep Quality", "Sleep"),
   ("Rate your sleep quality (1-10)", "Sleep"), ("Sleep (1-10)", "Sleep"), ("Sleep", "Sleep"),
   ("How is your mood?", "Mood"), ("Mood", "Mood"), ("Rate your mood (1-10)", "Mood"),
   ("Current Mood (1-10)", "Mood"),
   ("What is your overall energy level?", "Energy"), ("Energy Level", "Energy"),
   ("Energy", "Energy"), ("Rate your energy (1-10)", "Energy"), ("Energy Level (1-10)", "Energy"),
   ("What is your overall stress level?", "Stress"), ("Stress Level", "Stress"),
   ("Stress", "Stress"), ("Rate your stress (1-10)", "Stress"), ("Stress Level (1-10)", "Stress"),
   ("What is your general soreness?", "Soreness"), ("Soreness", "Soreness"),
   ("Muscle Soreness", "Soreness"), ("Rate your soreness (1-10)", "Soreness"),
   ("Soreness Level (1-10)", "Soreness"),
   ("What is your overall fatigue?", "Fatigue"), ("Fatigue", "Fatigue"),
   ("Fatigue Level", "Fatigue"), ("Rate your fatigue (1-10)", "Fatigue"),
   ("Fatigue Level (1-10)", "Fatigue")]

/-- The literal de-duplication pass over raw labels: a repeated label gets the
suffix `_k` for its `k`-th repetition (`seen` counts previous occurrences;
pushing the updated counter in front shadows the old entry for `lookup`). -/
def dedupRenameAux : List (String × ℕ) → List String → List String
  | _, [] => []
  | seen, c :: rest =>
    match seen.lookup c with
    | some k => (c ++ "_" ++ toString (k + 1)) :: dedupRenameAux ((c, k + 1) :: seen) rest
    | none => c :: dedupRenameAux ((c, 0) :: seen) rest

/-- Raw labels after de-duplication. -/
def dedupRename (cols : List String) : List String :=
  dedupRenameAux [] cols

/-- Semantic mapping of one source label: exact dictionary hit first, then the
first case-insensitive/trimmed hit in dictionary order. -/
def mapColumn (c : String) : Option String :=
  match column_mapping.find? (fun p => p.1 == c) with
  | some p => some p.2
  | none =>
    match column_mapping.find? (fun p => p.1.toLower.trim == c.toLower.trim) with
    | some p => some p.2
    | none => none

/-- The rename loop of `normalize_dataframe`: builds the list of
`(output label, source label)` pairs.  `used` is `columns_used` (canonical
names already written); `made` is `renamed_df.columns` (every output label so
far).  A mapped label whose canonical name was already used is dropped; an
unmapped label passes through unless its name was already produced. -/
def buildPlan : List String → List String → List String → List (String × String)
  | [], _, _ => []
  | old :: rest, used, made =>
    match mapColumn old with
    | some n =>
      if used.contains n then buildPlan rest used made
      else (n, old) :: buildPlan rest (n :: used) (n :: made)
    | none =>
      if made.contains old then buildPlan rest used made
      else (old, old) :: buildPlan rest used (old :: made)

/-- The cell of a row under a label (first occurrence), `null` when absent. -/
def cellAtLabel (cols : List String) (r : List Cell) (name : String) : Cell :=
  match cols.findIdx? (fun s => s == name) with
  | some i => r.getD i Cell.null
  | none => Cell.null

/-- Mask selecting the first occurrence of every label. -/
def keepFirstMaskAux (seen : List String) : List String → List Bool
  | [] => []
  | c :: rest => (!(seen.contains c)) :: keepFirstMaskAux (c :: seen) rest

/-- Keep the entries of `xs` whose mask bit is set. -/
def applyMask (mask : List Bool) (xs : List α) : List α :=
  (mask.zip xs).filterMap (fun p => if p.1 then some p.2 else none)

/-- `df.loc[:, ~df.columns.duplicated()]`: keep only the first occurrence of
every column label. -/
def keepFirstCols (t : Table) : Table :=
  ⟨applyMask (keepFirstMaskAux [] t.cols) t.cols,
   t.rows.map (applyMask (keepFirstMaskAux [] t.cols))⟩

/-- `utils/data_loader.py`, `normalize_dataframe`, column-reconciliation part
(lines 143–249 and the defensive re-check of lines 283–287): de-duplicate raw
labels, build the rename plan, materialise the renamed frame column by
column, and keep first occurrences if duplicates somehow remain. -/
def normalize_dataframe_columns (t : Table) : Table :=
  let cols1 := dedupRename t.cols
  let plan := buildPlan cols1 [] []
  let t2 : Table := ⟨plan.map Prod.fst, t.rows.map (fun r => plan.map (fun p => cellAtLabel cols1 r p.2))⟩
  if t2.cols.Nodup then t2 else keepFirstCols t2

/-- Elements surviving the keep-first mask are distinct and avoid `seen`. -/
theorem applyMask_keepFirst_nodup (cols : List String) :
    ∀ seen : List String,
      (applyMask (keepFirstMaskAux seen cols) cols).Nodup ∧
      ∀ x ∈ applyMask (keepFirstMaskAux seen cols) cols, x ∉ seen := by
  induction cols with
  | nil => intro seen; exact ⟨List.nodup_nil, by intro x hx; cases hx⟩
  | cons c rest ih =>
    intro seen
    by_cases hc : c ∈ seen
    · have hmask : keepFirstMaskAux seen (c :: rest) = false :: keepFirstMaskAux (c :: seen) rest := by
        simp [keepFirstMaskAux, hc]
      have happ : applyMask (keepFirstMaskAux seen (c :: rest)) (c :: rest) =
          applyMask (keepFirstMaskAux (c :: seen) rest) rest := by
        simp [hmask, applyMask]
      rw [happ]
      obtain ⟨h1, h2⟩ := ih (c :: seen)
      exact ⟨h1, fun x hx => fun hxs => h2 x hx (List.mem_cons_of_mem c hxs)⟩
  
    · have hmask : keepFirstMaskAux seen (c :: rest) = true :: keepFirstMaskAux (c :: seen) rest := by
        simp [keepFirstMaskAux, hc]
      have happ : applyMask (keepFirstMaskAux seen (c :: rest)) (c :: rest) =
          c :: applyMask (keepFirstMaskAux (c :: seen) rest) rest := by
        simp [hmask, applyMask]
      rw [happ]
      obtain ⟨h1, h2⟩ := ih (c :: seen)
      refine ⟨List.nodup_cons.mpr ⟨fun hmem => h2 c hmem (List.mem_cons_self c seen), h1⟩, ?_⟩
      intro x hx hxs
      rcases List.mem_cons.mp hx with h | h
      · exact hc (h ▸ hxs)
      · exact h2 x h (List.mem_cons_of_mem c hxs)

/-- C4: column reconciliation never outputs two columns with the same label —
for every input table the output labels are `Nodup`; and when two source
columns map to the same canonical name the first wins and the later one is
dropped entirely, not merged: `Sleep Quality` (value 7) and `Sleep` (value 3)
both map to `Sleep`, and the output keeps only the first with value 7. -/
theorem normalize_columns_no_duplicates :
    (∀ t : Table, (normalize_dataframe_columns t).cols.Nodup) ∧
    normalize_dataframe_columns
        ⟨["Sleep Quality", "Sleep", "Energy"], [[Cell.num 7, Cell.num 3, Cell.num 5]]⟩ =
      ⟨["Sleep", "Energy"], [[Cell.num 7, Cell.num 5]]⟩ := by
  constructor
  · intro t
    unfold normalize_dataframe_columns
    set t2 : Table := ⟨(buildPlan (dedupRename t.cols) [] []).map Prod.fst,
      t.rows.map (fun r => (buildPlan (dedupRename t.cols) [] []).map
        (fun p => cellAtLabel (dedupRename t.cols) r p.2))⟩ with ht2
    by_cases h : t2.cols.Nodup
    · simp only [if_pos h]; exact h
    · simp only [h, if_false]
      exact (applyMask_keepFirst_nodup t2.cols []).1
  · decide

/-- The canonical output schema of column reconciliation. -/
def canonical_labels : List String :=
  ["Timestamp", "Athlete", "SleepText", "Sleep", "Mood", "Energy", "Stress",
   "Soreness", "Fatigue"]

/-- A nine-cell row is rebuilt unchanged by the canonical rename plan. -/
theorem canonical_plan_rebuilds_row (r : List Cell) (hr : r.length = 9) :
    (buildPlan (dedupRename canonical_labels) [] []).map
      (fun p => cellAtLabel (dedupRename canonical_labels) r p.2) = r := by
  rcases r with _ | ⟨a, r⟩; · simp at hr
  rcases r with _ | ⟨b, r⟩; · simp at hr
  rcases r with _ | ⟨c, r⟩; · simp at hr
  rcases r with _ | ⟨d, r⟩; · simp at hr
  rcases r with _ | ⟨e, r⟩; · simp at hr
  rcases r with _ | ⟨f, r⟩; · simp at hr
  rcases r with _ | ⟨g, r⟩; · simp at hr
  rcases r with _ | ⟨h, r⟩; · simp at hr
  rcases r with _ | ⟨i, r⟩; · simp at hr
  rcases r with _ | ⟨j, r⟩
  · rfl
  · exact absurd hr (by simp)

/-- C8: column reconciliation is idempotent — applied to a table whose labels
are already exactly the canonical schema, it returns the table unchanged (in
particular a second application changes nothing and no `_1`, `_2`, … suffixes
ever appear). -/
theorem normalize_columns_idempotent (t : Table)
    (hc : t.cols = canonical_labels)
    (hw : ∀ r ∈ t.rows, r.length = canonical_labels.length) :
    normalize_dataframe_columns t = t := by
  obtain ⟨cols, rows⟩ := t
  have hc' : cols = canonical_labels := hc
  subst hc'
  have hrows : rows.map (fun r => (buildPlan (dedupRename canonical_labels) [] []).map
      (fun p => cellAtLabel (dedupRename canonical_labels) r p.2)) = rows := by
    have : ∀ r ∈ rows, (buildPlan (dedupRename canonical_labels) [] []).map
        (fun p => cellAtLabel (dedupRename canonical_labels) r p.2) = id r := by
      intro r hr
      exact canonical_plan_rebuilds_row r (hw r hr)
    rw [List.map_congr_left this, List.map_id]
  show (if ((buildPlan (dedupRename canonical_labels) [] []).map Prod.fst).Nodup then
      (⟨(buildPlan (dedupRename canonical_labels) [] []).map Prod.fst,
        rows.map (fun r => (buildPlan (dedupRename canonical_labels) [] []).map
          (fun p => cellAtLabel (dedupRename canonical_labels) r p.2))⟩ : Table)
    else keepFirstCols ⟨(buildPlan (dedupRename canonical_labels) [] []).map Prod.fst,
        rows.map (fun r => (buildPlan (dedupRename canonical_labels) [] []).map
          (fun p => cellAtLabel (dedupRename canonical_labels) r p.2))⟩) =
    ⟨canonical_labels, rows⟩
  rw [if_pos (by decide)]
  rw [hrows]
  have hfst : (buildPlan (dedupRename canonical_labels) [] []).map Prod.fst = canonical_labels := by
    decide
  rw [hfst]

/-- Witness for C8: a concrete already-canonical table is returned unchanged. -/
theorem normalize_columns_idempotent_witness :
    normalize_dataframe_columns
        ⟨canonical_labels,
         [[Cell.str "2024-01-01 07:00", Cell.str "A", Cell.str "7:30", Cell.num 7,
           Cell.num 6, Cell.num 5, Cell.num 4, Cell.num 3, Cell.num 2]]⟩ =
      ⟨canonical_labels,
       [[Cell.str "2024-01-01 07:00", Cell.str "A", Cell.str "7:30", Cell.num 7,
         Cell.num 6, Cell.num 5, Cell.num 4, Cell.num 3, Cell.num 2]]⟩ :=
  normalize_columns_idempotent _ rfl (by decide)

/-! ## Trend engine (`components/trends.py`, `compute_trend`) -/

/-- Sort rank of a cell kind: numbers, then strings, then missing values
(pandas sorts with `na_position='last'`; the tables here never mix numbers
and strings inside one sort key column). -/
def cellRank : Cell → ℕ
  | Cell.num _ => 0
  | Cell.str _ => 1
  | Cell.null => 2

/-- `≤` on cells for `sort_values`. -/
def cellLeB (a b : Cell) : Bool :=
  match a, b with
  | Cell.num x, Cell.num y => decide (x ≤ y)
  | Cell.str x, Cell.str y =>
    match compare x y with
    | Ordering.gt => false
    | _ => true
  | _, _ => decide (cellRank a ≤ cellRank b)

/-- Lexicographic `≤` on rows for `sort_values(['Athlete', 'Date'])`, reading
the two key cells at positions `ia` and `idt`.  Multi-key `sort_values` uses
`np.lexsort`, which is stable, so the embedding sorts with a stable insertion
sort. -/
def rowLeB (ia idt : Nat) (r1 r2 : List Cell) : Bool :=
  let a1 := r1.getD ia Cell.null
  let a2 := r2.getD ia Cell.null
  if a1 = a2 then cellLeB (r1.getD idt Cell.null) (r2.getD idt Cell.null)
  else cellLeB a1 a2

/-- Stable sort of the rows by athlete then date. -/
def sortRows (ia idt : Nat) (rows : List (List Cell)) : List (List Cell) :=
  List.insertionSort (fun r1 r2 => rowLeB ia idt r1 r2 = true) rows

/-- `groupby(key).shift(1)` over `(key, value)` pairs in current row order:
for each position, the value of the nearest earlier row with the same
non-null key; `null` when the key is null (pandas groupby drops null keys) or
no such row exists.  `past` holds the already-seen pairs, most recent
first. -/
def prevSameKeyAux : List (Cell × Cell) → List (Cell × Cell) → List Cell
  | _, [] => []
  | past, (k, v) :: rest =>
    (if k = Cell.null then Cell.null
     else
       match past.find? (fun p => p.1 == k) with
       | some p => p.2
       | none => Cell.null) :: prevSameKeyAux ((k, v) :: past) rest

/-- `groupby(key).shift(1)` column for a list of `(key, value)` pairs. -/
def prevSameKey (pairs : List (Cell × Cell)) : List Cell :=
  prevSameKeyAux [] pairs

/-- Cell subtraction: `NaN` (null) unless both operands are numbers, as for
`df[metric] - df['_prev']` on numeric series. -/
def cellSub (a b : Cell) : Cell :=
  match cellNum a, cellNum b with
  | some x, some y => Cell.num (x - y)
  | _, _ => Cell.null

/-- The `np.select` ladder over `_diff`: null when the difference is missing,
then `UP` / `DOWN` / `FLAT` by its sign (`np.nan` is the DataFrame's null). -/
def trendOfDiff (d : Cell) : Cell :=
  match cellNum d with
  | none => Cell.null
  | some x => if x > 0 then Cell.str "UP" else if x < 0 then Cell.str "DOWN" else Cell.str "FLAT"

/-- `components/trends.py`, `compute_trend` (default suffix `"_Trend"`):
when `Athlete`, `Date` or the metric column is missing, assign an all-null
trend column and return; otherwise sort by athlete and date, assign `_prev`
(per-athlete shift) and `_diff`, select the trend labels, and drop the two
temporary columns. -/
def compute_trend (df : Table) (metric_col : String) : Table :=
  let trend_col := metric_col ++ "_Trend"
  if !(["Athlete", "Date", metric_col].all (fun c => df.cols.contains c)) then
    setCol df trend_col (List.replicate df.rows.length Cell.null)
  else
    let ia := (colIdx df "Athlete").getD 0
    let idt := (colIdx df "Date").getD 0
    let im := (colIdx df metric_col).getD 0
    let sorted := sortRows ia idt df.rows
    let df1 : Table := ⟨df.cols, sorted⟩
    let prevs := prevSameKey (sorted.map (fun r => (r.getD ia Cell.null, r.getD im Cell.null)))
    let df2 := setCol df1 "_prev" prevs
    let diffs := List.zipWith cellSub (getColCells df2 metric_col) (getColCells df2 "_prev")
    let df3 := setCol df2 "_diff" diffs
    let trends := (getColCells df3 "_diff").map trendOfDiff
    let df4 := setCol df3 trend_col trends
    dropCols df4 ["_prev", "_diff"]

/-- C5: the trend engine groups by athlete, orders by date (stably), and
labels each row against the same athlete's immediately preceding row: no
prior or null prior gives null, then `UP`/`DOWN`/`FLAT` by comparison.  On a
table holding athlete A's same-day readiness values `[5, 5, 7]` interleaved
with athlete B's `[9, 3]`, A's rows get `[null, FLAT, UP]` and B's get
`[null, DOWN]` (rows grouped per athlete in the sorted output). -/
theorem compute_trend_example :
    compute_trend
        ⟨["Athlete", "Date", "Readiness"],
         [[Cell.str "A", Cell.num 1, Cell.num 5],
          [Cell.str "B", Cell.num 1, Cell.num 9],
          [Cell.str "A", Cell.num 1, Cell.num 5],
          [Cell.str "B", Cell.num 1, Cell.num 3],
          [Cell.str "A", Cell.num 1, Cell.num 7]]⟩ "Readiness" =
      ⟨["Athlete", "Date", "Readiness", "Readiness_Trend"],
       [[Cell.str "A", Cell.num 1, Cell.num 5, Cell.null],
        [Cell.str "A", Cell.num 1, Cell.num 5, Cell.str "FLAT"],
        [Cell.str "A", Cell.num 1, Cell.num 7, Cell.str "UP"],
        [Cell.str "B", Cell.num 1, Cell.num 9, Cell.null],
        [Cell.str "B", Cell.num 1, Cell.num 3, Cell.str "DOWN"]]⟩ := by
  decide

/-! ## Cohort z-score engine (`components/zscores.py`, `calculate_zscore_by_date`)

The code's inline comment and DAX docstring ask for the population standard
deviation (`STDEV.P`, divisor `N`), but `groupby(by)[metric].agg(['mean',
'std'])` uses pandas' default `ddof=1`, the sample standard deviation
(divisor `N - 1`).  The embedding below follows the code. -/

/-- Pack an optional number into a cell. -/
def optCell : Option ℚ → Cell
  | some q => Cell.num q
  | none => Cell.null

/-- Three-list `zipWith`, truncating at the shortest list. -/
def zipWith3C (f : α → β → γ → δ) : List α → List β → List γ → List δ
  | a :: as, b :: bs, c :: cs => f a b c :: zipWith3C f as bs cs
  | _, _, _ => []

/-- `components/zscores.py`, `calculate_zscore_by_date` (suffix `"_ZScore"`;
the Python default `by=None` means `by = ['Date']`): missing metric or
grouping column gives an all-null z-score column; otherwise the group
`mean`/`std` (sample std, `ddof=1`) are merged back per row (a left merge
preserving row order, with suffix `_group` on an incoming label that already
exists — in which case the z-score formula reads the pre-existing column, as
the code's unsuffixed `df['mean']`/`df['std']` lookups do), the z-score is
`(x - mean) / std` where `std > 0` and `NaN` elsewhere, and the `mean`/`std`
labels are dropped.  Rows with a null group key join no group (pandas
`groupby` drops null keys) and get null statistics. -/
def calculate_zscore_by_date (df : Table) (metric_col : String) (byCols : List String) : Table :=
  let zscore_col := metric_col ++ "_ZScore"
  if !(df.cols.contains metric_col) then
    setCol df zscore_col (List.replicate df.rows.length Cell.null)
  else if !(byCols.all (fun c => df.cols.contains c)) then
    setCol df zscore_col (List.replicate df.rows.length Cell.null)
  else
    let keyIdxs := byCols.map (fun c => (colIdx df c).getD 0)
    let keyOf := fun (r : List Cell) => keyIdxs.map (fun i => r.getD i Cell.null)
    let im := (colIdx df metric_col).getD 0
    let statsOf := fun (r : List Cell) =>
      if (keyOf r).contains Cell.null then (Cell.null, Cell.null)
      else
        let groupVals := (df.rows.filter (fun s => keyOf s == keyOf r)).map
          (fun s => s.getD im Cell.null)
        (optCell (seriesMean groupVals), optCell (seriesStd groupVals))
    let meanName := if df.cols.contains "mean" then "mean_group" else "mean"
    let stdName := if df.cols.contains "std" then "std_group" else "std"
    let df1 : Table := ⟨df.cols ++ [meanName], appendColCells df.rows (df.rows.map (fun r => (statsOf r).1))⟩
    let df2 : Table := ⟨df1.cols ++ [stdName], appendColCells df1.rows (df.rows.map (fun r => (statsOf r).2))⟩
    let zvals := zipWith3C
      (fun x mean std =>
        match cellNum std with
        | some sd =>
          if sd > 0 then
            match cellNum x, cellNum mean with
            | some xv, some mv => Cell.num ((xv - mv) / sd)
            | _, _ => Cell.null
          else Cell.null
        | none => Cell.null)
      (getColCells df2 metric_col) (getColCells df2 "mean") (getColCells df2 "std")
    let df3 := setCol df2 zscore_col zvals
    dropCols df3 ["mean", "std"]

/-- C1 (code bug): the z-score engine was meant to standardise with the
population standard deviation (divisor `N` — the code comments say "Use
population std (ddof=0) to match DAX STDEV.P" and the spec repeats it), but
`agg(['mean', 'std'])` uses pandas' default sample standard deviation
(divisor `N - 1`).  On the date cohort `[2, 4, 6]` the sample std is `2`, so
the code produces z-scores `[-1, 0, 1]` — not the population-std values
`≈ [-1.22, 0, 1.22]` the claim states.  The zero-variance half of the claim
does hold: an all-identical cohort gets a null z-score on every row. -/
theorem zscore_sample_std_divergence :
    calculate_zscore_by_date
        ⟨["Athlete", "Date", "M"],
         [[Cell.str "X", Cell.num 1, Cell.num 2],
          [Cell.str "Y", Cell.num 1, Cell.num 4],
          [Cell.str "Z", Cell.num 1, Cell.num 6]]⟩ "M" ["Date"] =
      ⟨["Athlete", "Date", "M", "M_ZScore"],
       [[Cell.str "X", Cell.num 1, Cell.num 2, Cell.num (-1)],
        [Cell.str "Y", Cell.num 1, Cell.num 4, Cell.num 0],
        [Cell.str "Z", Cell.num 1, Cell.num 6, Cell.num 1]]⟩ ∧
    calculate_zscore_by_date
        ⟨["Athlete", "Date", "M"],
         [[Cell.str "X", Cell.num 1, Cell.num 5],
          [Cell.str "Y", Cell.num 1, Cell.num 5],
          [Cell.str "Z", Cell.num 1, Cell.num 5]]⟩ "M" ["Date"] =
      ⟨["Athlete", "Date", "M", "M_ZScore"],
       [[Cell.str "X", Cell.num 1, Cell.num 5, Cell.null],
        [Cell.str "Y", Cell.num 1, Cell.num 5, Cell.null],
        [Cell.str "Z", Cell.num 1, Cell.num 5, Cell.null]]⟩ := by
  constructor
  · decide
  · decide

/-! ## Risk assessment (`utils/ai_insights.py`, `predict_performance_risk`) -/

/-- The result dictionary of `predict_performance_risk`.  The empty-athlete
early return carries no `risk_score` and no `recommendation`, hence the
`Option` fields. -/
structure RiskResult where
  risk_level : String
  risk_score : Option ℕ
  factors : List String
  recommendation : Option String
deriving DecidableEq, Repr

/-- `_get_risk_recommendation`: dictionary lookup with a default.  (The
`factors` argument of the Python method is unused there and is omitted.) -/
def get_risk_recommendation (risk_level : String) : String :=
  if risk_level == "high" then
    "⚠️ Consider modified training or additional recovery day. Monitor closely."
  else if risk_level == "moderate" then
    "📊 Adjust training intensity. Focus on recovery protocols."
  else if risk_level == "low" then
    "✅ Monitor trends. Maintain current recovery practices."
  else if risk_level == "minimal" then
    "💪 Athlete is in good condition for normal training."
  else "Continue monitoring wellness metrics."

/-- `utils/ai_insights.py`, `predict_performance_risk` (default
`threshold_readiness = 5.0` passed by every caller): filter to one athlete
(`KeyError`, hence `none`, when `Athlete` is absent; likewise for `Date` once
the filter is non-empty), sort by date, keep the last 7 rows, then add up
threshold rules — mean readiness below the threshold `+2`, readiness
dropping by more than 1 from the first to the last of the window `+1`, mean
stress above 7 `+2`, sample std of sleep minutes above 90 `+1`, mean fatigue
above 7 `+2` — and bucket the score (`≥5` high, `≥3` moderate, `≥1` low,
else minimal).  The numeric interpolations inside the Python factor strings
(e.g. the `({avg:.1f})` suffix) are elided; a missing statistic (`NaN`)
fails every `<`/`>` comparison, as in numpy. -/
def predict_performance_risk (df : Table) (athlete : String) (threshold : ℚ) : Option RiskResult :=
  match colIdx df "Athlete" with
  | none => none
  | some ia =>
    let athlete_rows := df.rows.filter (fun r => r.getD ia Cell.null == Cell.str athlete)
    if athlete_rows.isEmpty then some ⟨"unknown", none, [], none⟩
    else
      match colIdx df "Date" with
      | none => none
      | some idt =>
        let sorted := List.insertionSort
          (fun r1 r2 => cellLeB (r1.getD idt Cell.null) (r2.getD idt Cell.null) = true)
          athlete_rows
        let recent := sorted.drop (sorted.length - 7)
        let step1 :=
          match colIdx df "Readiness" with
          | none => ((0 : ℕ), ([] : List String))
          | some ir =>
            let rvals := recent.map (fun (r : List Cell) => r.getD ir Cell.null)
            let base :=
              match seriesMean rvals with
              | some avg =>
                if avg < threshold then ((2 : ℕ), ["Low average readiness"]) else (0, [])
              | none => (0, [])
            let decl :=
              if 1 < recent.length then
                match cellNum ((recent.getLastD []).getD ir Cell.null),
                    cellNum ((recent.headD []).getD ir Cell.null) with
                | some lastv, some firstv =>
                  if lastv - firstv < -1 then ((1 : ℕ), ["Declining readiness trend"])
                  else (0, [])
                | _, _ => (0, [])
              else (0, [])
            (base.1 + decl.1, base.2 ++ decl.2)
        let step2 :=
          match colIdx df "Stress" with
          | none => ((0 : ℕ), ([] : List String))
          | some ist =>
            match seriesMean (recent.map (fun (r : List Cell) => r.getD ist Cell.null)) with
            | some avg => if avg > 7 then ((2 : ℕ), ["High stress levels"]) else (0, [])
            | none => (0, [])
        let step3 :=
          match colIdx df "SleepMinutes" with
          | none => ((0 : ℕ), ([] : List String))
          | some isl =>
            match seriesStd (recent.map (fun (r : List Cell) => r.getD isl Cell.null)) with
            | some sd => if sd > 90 then ((1 : ℕ), ["Inconsistent sleep patterns"]) else (0, [])
            | none => (0, [])
        let step4 :=
          match colIdx df "Fatigue" with
          | none => ((0 : ℕ), ([] : List String))
          | some ift =>
            match seriesMean (recent.map (fun (r : List Cell) => r.getD ift Cell.null)) with
            | some avg => if avg > 7 then ((2 : ℕ), ["High fatigue"]) else (0, [])
            | none => (0, [])
        let score := step1.1 + step2.1 + step3.1 + step4.1
        let level :=
          if score ≥ 5 then "high"
          else if score ≥ 3 then "moderate"
          else if score ≥ 1 then "low"
          else "minimal"
        some ⟨level, some score, step1.2 ++ step2.2 ++ step3.2 ++ step4.2,
          some (get_risk_recommendation level)⟩

/-- C6: over the most recent 7 rows of one athlete's table the risk score
adds `+2` for mean readiness below 5.0, `+1` for a more-than-one-point drop
from the first to the last readiness of the window, `+2` for mean stress
above 7, `+1` for sleep-minutes standard deviation above 90, `+2` for mean
fatigue above 7, and buckets `≥5` high / `≥3` moderate / `≥1` low / else
minimal.  Seven rows with mean readiness 4.0 and mean stress 8.0 score 4 and
land in `moderate`; a window additionally triggering the decline, sleep and
fatigue factors scores 8 and lands in `high`. -/
theorem predict_performance_risk_example :
    predict_performance_risk
        ⟨["Athlete", "Date", "Readiness", "Stress", "SleepMinutes", "Fatigue"],
         [[Cell.str "A", Cell.num 1, Cell.num 4, Cell.num 8, Cell.num 400, Cell.num 5],
          [Cell.str "A", Cell.num 2, Cell.num 4, Cell.num 8, Cell.num 400, Cell.num 5],
          [Cell.str "A", Cell.num 3, Cell.num 4, Cell.num 8, Cell.num 400, Cell.num 5],
          [Cell.str "A", Cell.num 4, Cell.num 4, Cell.num 8, Cell.num 400, Cell.num 5],
          [Cell.str "A", Cell.num 5, Cell.num 4, Cell.num 8, Cell.num 400, Cell.num 5],
          [Cell.str "A", Cell.num 6, Cell.num 4, Cell.num 8, Cell.num 400, Cell.num 5],
          [Cell.str "A", Cell.num 7, Cell.num 4, Cell.num 8, Cell.num 400, Cell.num 5]]⟩
        "A" 5 =
      some ⟨"moderate", some 4, ["Low average readiness", "High stress levels"],
        some "📊 Adjust training intensity. Focus on recovery protocols."⟩ ∧
    predict_performance_risk
        ⟨["Athlete", "Date", "Readiness", "Stress", "SleepMinutes", "Fatigue"],
         [[Cell.str "A", Cell.num 1, Cell.num 6, Cell.num 8, Cell.num 520, Cell.num 8],
          [Cell.str "A", Cell.num 2, Cell.num 5, Cell.num 8, Cell.num 280, Cell.num 8],
          [Cell.str "A", Cell.num 3, Cell.num 4, Cell.num 8, Cell.num 520, Cell.num 8],
          [Cell.str "A", Cell.num 4, Cell.num 4, Cell.num 8, Cell.num 280, Cell.num 8],
          [Cell.str "A", Cell.num 5, Cell.num 4, Cell.num 8, Cell.num 520, Cell.num 8],
          [Cell.str "A", Cell.num 6, Cell.num 3, Cell.num 8, Cell.num 280, Cell.num 8],
          [Cell.str "A", Cell.num 7, Cell.num 2, Cell.num 8, Cell.num 400, Cell.num 8]]⟩
        "A" 5 =
      some ⟨"high", some 8,
        ["Low average readiness", "Declining readiness trend", "High stress levels",
         "Inconsistent sleep patterns", "High fatigue"],
        some "⚠️ Consider modified training or additional recovery day. Monitor closely."⟩ := by
  constructor
  · decide
  · decide


/-! ## Frame properties of the derivation passes

The lemmas below isolate the common shape of `compute_trend` and
`calculate_zscore_by_date` in their main branch: three columns are appended
on the right (two temporaries and the derived column) and the two
temporaries are dropped again, leaving every input column in place. -/

/-- Assigning a label that is not present appends the column on the right. -/
theorem setCol_fresh (t : Table) (c : String) (vals : List Cell) (h : c ∉ t.cols) :
    setCol t c vals = ⟨t.cols ++ [c], appendColCells t.rows vals⟩ := by
  unfold setCol
  have hnone : t.cols.findIdx? (fun s => s == c) = none :=
    List.findIdx?_eq_none_iff.mpr fun x hx =>
      beq_eq_false_iff_ne.mpr fun he => h (he ▸ hx)
  rw [hnone]

/-- Reading a present column gives one cell per row. -/
theorem getColCells_length (t : Table) (c : String) (h : c ∈ t.cols) :
    (getColCells t c).length = t.rows.length := by
  unfold getColCells colIdx
  cases hf : t.cols.findIdx? (fun s => s == c) with
  | some i => simp
  | none =>
    have := List.findIdx?_eq_none_iff.mp hf c h
    simp at this

/-- The shift column has one entry per row. -/
theorem prevSameKeyAux_length (pairs : List (Cell × Cell)) :
    ∀ past, (prevSameKeyAux past pairs).length = pairs.length := by
  induction pairs with
  | nil => intro _; rfl
  | cons p rest ih =>
    intro past
    cases p with
    | mk k v => simp [prevSameKeyAux, ih]

/-- The shift column has one entry per row. -/
theorem prevSameKey_length (pairs : List (Cell × Cell)) :
    (prevSameKey pairs).length = pairs.length :=
  prevSameKeyAux_length pairs []

/-- Length of the three-list `zipWith` on equally long lists. -/
theorem zipWith3C_length (f : α → β → γ → δ) :
    ∀ (as : List α) (bs : List β) (cs : List γ),
      as.length = bs.length → bs.length = cs.length →
      (zipWith3C f as bs cs).length = as.length := by
  intro as
  induction as with
  | nil => intro bs cs _ _; rfl
  | cons a as ih =>
    intro bs cs h1 h2
    cases bs with
    | nil => simp at h1
    | cons b bs =>
      cases cs with
      | nil => simp at h2
      | cons c cs =>
        simpa [zipWith3C] using ih bs cs (by simpa using h1) (by simpa using h2)

/-- Truncating each extended row back to the original width recovers the
original rows. -/
theorem appendColCells_map_take (n : ℕ) :
    ∀ (rows : List (List Cell)) (vals : List Cell),
      vals.length = rows.length → (∀ r ∈ rows, r.length = n) →
      (appendColCells rows vals).map (List.take n) = rows := by
  intro rows
  induction rows with
  | nil => intro vals _ _; simp [appendColCells]
  | cons r rows ih =>
    intro vals hl hwf
    cases vals with
    | nil => simp at hl
    | cons v vals =>
      have hr : r.length = n := hwf r (List.mem_cons_self r rows)
      have htake : (r ++ [v]).take n = r := by
        rw [← hr]; exact List.take_left r [v]
      simp only [appendColCells, List.zipWith_cons_cons, List.map_cons]
      rw [htake]
      congr 1
      exact ih vals (by simpa using hl) fun x hx => hwf x (List.mem_cons_of_mem _ hx)

/-- Dropping the two temporary labels from a row extended by three cells
keeps exactly the original cells plus the derived one. -/
theorem dropColsRow_three (cols : List String) (l1 l2 l3 : String)
    (hk : ∀ c ∈ cols, c ≠ l1 ∧ c ≠ l2) (h31 : l3 ≠ l1) (h32 : l3 ≠ l2)
    (r : List Cell) (a b c' : Cell) (hr : r.length = cols.length) :
    dropColsRow (((cols ++ [l1]) ++ [l2]) ++ [l3]) [l1, l2] (((r ++ [a]) ++ [b]) ++ [c']) =
      r ++ [c'] := by
  unfold dropColsRow
  have e1 : (((cols ++ [l1]) ++ [l2]) ++ [l3]).zip (((r ++ [a]) ++ [b]) ++ [c']) =
      ((cols.zip r ++ [(l1, a)]) ++ [(l2, b)]) ++ [(l3, c')] := by
    rw [List.zip_append (by simp [hr.symm]), List.zip_append (by simp [hr.symm]),
      List.zip_append hr.symm]
    rfl
  rw [e1, List.filter_append, List.filter_append, List.filter_append]
  have f1 : List.filter (fun p => !([l1, l2].contains p.1)) (cols.zip r) = cols.zip r :=
    List.filter_eq_self.mpr fun p hp => by
      obtain ⟨hc, _⟩ := List.of_mem_zip hp
      obtain ⟨hne1, hne2⟩ := hk p.1 hc
      simp [hne1, hne2]
  have f2 : List.filter (fun p => !([l1, l2].contains p.1)) [(l1, a)] = [] := by simp
  have f3 : List.filter (fun p => !([l1, l2].contains p.1)) [(l2, b)] = [] := by simp
  have f4 : List.filter (fun p => !([l1, l2].contains p.1)) [(l3, c')] = [(l3, c')] := by
    simp [h31, h32]
  rw [f1, f2, f3, f4]
  simp only [List.append_nil, List.map_append]
  rw [List.map_snd_zip cols r hr.le]
  rfl

/-- Row part of "append three columns, drop the two temporaries". -/
theorem append3_rows_drop (cols : List String) (l1 l2 l3 : String)
    (hk : ∀ c ∈ cols, c ≠ l1 ∧ c ≠ l2) (h31 : l3 ≠ l1) (h32 : l3 ≠ l2) :
    ∀ (rows : List (List Cell)) (v1 v2 v3 : List Cell),
      v1.length = rows.length → v2.length = rows.length → v3.length = rows.length →
      (∀ r ∈ rows, r.length = cols.length) →
      (appendColCells (appendColCells (appendColCells rows v1) v2) v3).map
          (dropColsRow (((cols ++ [l1]) ++ [l2]) ++ [l3]) [l1, l2]) =
        appendColCells rows v3 := by
  intro rows
  induction rows with
  | nil => intro v1 v2 v3 _ _ _ _; simp [appendColCells]
  | cons r rows ih =>
    intro v1 v2 v3 h1 h2 h3 hwf
    cases v1 with
    | nil => simp at h1
    | cons a v1 =>
      cases v2 with
      | nil => simp at h2
      | cons b v2 =>
        cases v3 with
        | nil => simp at h3
        | cons c' v3 =>
          have hd := dropColsRow_three cols l1 l2 l3 hk h31 h32 r a b c'
            (hwf r (List.mem_cons_self r rows))
          simp only [appendColCells, List.zipWith_cons_cons, List.map_cons]
          rw [hd]
          congr 1
          exact ih v1 v2 v3 (by simpa using h1) (by simpa using h2) (by simpa using h3)
            fun x hx => hwf x (List.mem_cons_of_mem _ hx)

/-- Appending three columns on the right and dropping the first two leaves
the original columns untouched, with only the third new column added. -/
theorem append3_drop2 (cols : List String) (l1 l2 l3 : String)
    (h1 : l1 ∉ cols) (h2 : l2 ∉ cols) (h31 : l3 ≠ l1) (h32 : l3 ≠ l2)
    (rows : List (List Cell)) (v1 v2 v3 : List Cell)
    (hv1 : v1.length = rows.length) (hv2 : v2.length = rows.length)
    (hv3 : v3.length = rows.length)
    (hwf : ∀ r ∈ rows, r.length = cols.length) :
    dropCols ⟨((cols ++ [l1]) ++ [l2]) ++ [l3],
        appendColCells (appendColCells (appendColCells rows v1) v2) v3⟩ [l1, l2] =
      ⟨cols ++ [l3], appendColCells rows v3⟩ := by
  have hk : ∀ c ∈ cols, c ≠ l1 ∧ c ≠ l2 := fun c hc =>
    ⟨fun e => h1 (e ▸ hc), fun e => h2 (e ▸ hc)⟩
  unfold dropCols
  simp only [Table.mk.injEq]
  constructor
  · rw [List.filter_append, List.filter_append, List.filter_append]
    have f0 : List.filter (fun c => !([l1, l2].contains c)) cols = cols :=
      List.filter_eq_self.mpr fun c hc => by
        obtain ⟨hne1, hne2⟩ := hk c hc
        simp [hne1, hne2]
    have g1 : List.filter (fun c => !([l1, l2].contains c)) [l1] = [] := by simp
    have g2 : List.filter (fun c => !([l1, l2].contains c)) [l2] = [] := by simp
    have g3 : List.filter (fun c => !([l1, l2].contains c)) [l3] = [l3] := by
      simp [h31, h32]
    rw [f0, g1, g2, g3]
    simp
  · exact append3_rows_drop cols l1 l2 l3 hk h31 h32 rows v1 v2 v3 hv1 hv2 hv3 hwf

/-- A string obtained by appending a suffix differs from any string shorter
than the suffix itself (used for `metric ++ "_Trend" ≠ "_prev"` and
friends, for every metric name). -/
theorem append_ne_of_suffix_longer (m s t : String) (h : t.length < s.length) :
    m ++ s ≠ t := fun e => by
  have hlen := congrArg String.length e
  rw [String.length_append] at hlen
  omega

/-- Frame corollary: assigning a fresh derived column on top of two appended
temporaries and dropping the temporaries keeps the original columns and rows
(up to the appended derived cell). -/
theorem setCol3_drop2_frame (cols : List String) (l1 l2 l3 : String)
    (h1 : l1 ∉ cols) (h2 : l2 ∉ cols) (h3 : l3 ∉ cols) (h31 : l3 ≠ l1) (h32 : l3 ≠ l2)
    (rows : List (List Cell)) (v1 v2 v3 : List Cell)
    (hv1 : v1.length = rows.length) (hv2 : v2.length = rows.length)
    (hv3 : v3.length = rows.length)
    (hwf : ∀ r ∈ rows, r.length = cols.length) :
    (dropCols (setCol ⟨(cols ++ [l1]) ++ [l2],
        appendColCells (appendColCells rows v1) v2⟩ l3 v3) [l1, l2]).cols = cols ++ [l3] ∧
    (dropCols (setCol ⟨(cols ++ [l1]) ++ [l2],
        appendColCells (appendColCells rows v1) v2⟩ l3 v3) [l1, l2]).rows.map
      (List.take cols.length) = rows := by
  rw [setCol_fresh _ _ _ (by simp [h3, h31, h32])]
  rw [append3_drop2 cols l1 l2 l3 h1 h2 h31 h32 rows v1 v2 v3 hv1 hv2 hv3 hwf]
  exact ⟨rfl, appendColCells_map_take cols.length rows v3 hv3 hwf⟩

theorem trend_zscore_frame (t : Table) (metric : String)
    (hwf : wfTable t)
    (hp : "_prev" ∉ t.cols) (hd : "_diff" ∉ t.cols)
    (hmean : "mean" ∉ t.cols) (hstd : "std" ∉ t.cols)
    (htr : metric ++ "_Trend" ∉ t.cols) (hz : metric ++ "_ZScore" ∉ t.cols) :
    ((compute_trend t metric).cols = t.cols ++ [metric ++ "_Trend"] ∧
      List.Perm ((compute_trend t metric).rows.map (List.take t.cols.length)) t.rows) ∧
    ((calculate_zscore_by_date t metric ["Date"]).cols = t.cols ++ [metric ++ "_ZScore"] ∧
      (calculate_zscore_by_date t metric ["Date"]).rows.map (List.take t.cols.length) = t.rows) := by
  obtain ⟨cols, rows⟩ := t
  simp only [wfTable] at hwf
  constructor
  · -- compute_trend
    by_cases hcase : "Athlete" ∈ cols ∧ "Date" ∈ cols ∧ metric ∈ cols
    · obtain ⟨hA, hD, hM⟩ := hcase
      have hall : (["Athlete", "Date", metric].all fun c =>
          (Table.mk cols rows).cols.contains c) = true := by
        simp [List.all_eq_true]
        exact ⟨hA, hD, hM⟩
      have hTp : metric ++ "_Trend" ≠ "_prev" :=
        append_ne_of_suffix_longer _ _ _ (by decide)
      have hTd : metric ++ "_Trend" ≠ "_diff" :=
        append_ne_of_suffix_longer _ _ _ (by decide)
      simp only [compute_trend, hall, Bool.not_true, Bool.false_eq_true, if_false]
      set ia := (colIdx ⟨cols, rows⟩ "Athlete").getD 0 with hia
      set idt := (colIdx ⟨cols, rows⟩ "Date").getD 0 with hidt
      set im := (colIdx ⟨cols, rows⟩ metric).getD 0 with him
      set S := sortRows ia idt rows with hSdef
      have hperm : List.Perm S rows := List.perm_insertionSort _ rows
      have hSwf : ∀ r ∈ S, r.length = cols.length := fun r hr => hwf r (hperm.mem_iff.mp hr)
      set P := prevSameKey (S.map fun r => (r.getD ia Cell.null, r.getD im Cell.null)) with hPdef
      have hPlen : P.length = S.length := by
        rw [hPdef, prevSameKey_length, List.length_map]
      rw [setCol_fresh ⟨cols, S⟩ "_prev" P hp]
      set A1 := appendColCells S P with hA1def
      have hA1len : A1.length = S.length := by
        rw [hA1def]
        unfold appendColCells
        rw [List.length_zipWith, hPlen]
        simp
      set D := List.zipWith cellSub (getColCells ⟨cols ++ ["_prev"], A1⟩ metric)
        (getColCells ⟨cols ++ ["_prev"], A1⟩ "_prev") with hDdef
      have hDlen : D.length = S.length := by
        rw [hDdef, List.length_zipWith, getColCells_length _ _ (by simp [hM]),
          getColCells_length _ _ (by simp)]
        simp [hA1len]
      rw [setCol_fresh ⟨cols ++ ["_prev"], A1⟩ "_diff" D (by simp [hd])]
      set A2 := appendColCells A1 D with hA2def
      have hA2len : A2.length = S.length := by
        rw [hA2def]
        unfold appendColCells
        rw [List.length_zipWith, hA1len, hDlen]
        simp
      set T := List.map trendOfDiff
        (getColCells ⟨(cols ++ ["_prev"]) ++ ["_diff"], A2⟩ "_diff") with hTdef
      have hTlen : T.length = S.length := by
        rw [hTdef, List.length_map, getColCells_length _ _ (by simp)]
        exact hA2len
      rw [setCol_fresh ⟨(cols ++ ["_prev"]) ++ ["_diff"], A2⟩ (metric ++ "_Trend") T
        (by simp [htr, hTp, hTd])]
      rw [hA2def, hA1def]
      rw [append3_drop2 cols "_prev" "_diff" (metric ++ "_Trend") hp hd hTp hTd S P D T
        hPlen hDlen hTlen hSwf]
      constructor
      · rfl
      · dsimp only
        rw [appendColCells_map_take cols.length S T hTlen hSwf]
        exact hperm
    · have hall : (["Athlete", "Date", metric].all fun c =>
          (Table.mk cols rows).cols.contains c) = false := by
        rw [Bool.eq_false_iff]
        intro hT
        apply hcase
        simpa [List.all_eq_true] using hT
      simp only [compute_trend, hall, Bool.not_false, if_true]
      rw [setCol_fresh _ _ _ htr]
      constructor
      · rfl
      · dsimp only
        rw [appendColCells_map_take cols.length rows _ (by simp) hwf]
  · have hZm : metric ++ "_ZScore" ≠ "mean" := append_ne_of_suffix_longer _ _ _ (by decide)
    have hZs : metric ++ "_ZScore" ≠ "std" := append_ne_of_suffix_longer _ _ _ (by decide)
    by_cases hm1 : metric ∈ cols
    · by_cases hDate : "Date" ∈ cols
      · have c1 : (Table.mk cols rows).cols.contains metric = true := by simp [hm1]
        have c2 : (["Date"].all fun c => (Table.mk cols rows).cols.contains c) = true := by
          simp [hDate]
        have c3 : (Table.mk cols rows).cols.contains "mean" = false := by simp [hmean]
        have c4 : (Table.mk cols rows).cols.contains "std" = false := by simp [hstd]
        simp only [calculate_zscore_by_date, c1, c2, c3, c4, Bool.not_true, Bool.false_eq_true,
          if_false]
        refine setCol3_drop2_frame cols "mean" "std" (metric ++ "_ZScore") hmean hstd hz hZm hZs
          rows _ _ _ ?l1 ?l2 ?l3 hwf
        case l1 => simp
        case l2 => simp
        case l3 =>
          refine (zipWith3C_length _ _ _ _ ?_ ?_).trans ?_
          · rw [getColCells_length _ _ (by simp [hm1]), getColCells_length _ _ (by simp)]
          · rw [getColCells_length _ _ (by simp), getColCells_length _ _ (by simp)]
          · rw [getColCells_length _ _ (by simp [hm1])]
            simp [appendColCells]
      · have c1 : (Table.mk cols rows).cols.contains metric = true := by simp [hm1]
        have c2 : (["Date"].all fun c => (Table.mk cols rows).cols.contains c) = false := by
          simp [hDate]
        simp only [calculate_zscore_by_date, c1, c2, Bool.not_true, Bool.not_false,
          Bool.false_eq_true, if_false, if_true]
        rw [setCol_fresh _ _ _ hz]
        constructor
        · rfl
        · dsimp only
          rw [appendColCells_map_take cols.length rows _ (by simp) hwf]
    · have c1 : (Table.mk cols rows).cols.contains metric = false := by simp [hm1]
      simp only [calculate_zscore_by_date, c1, Bool.not_false, if_true]
      rw [setCol_fresh _ _ _ hz]
      constructor
      · rfl
      · dsimp only
        rw [appendColCells_map_take cols.length rows _ (by simp) hwf]

/-- A one-row well-formed canonical-style table for instantiating the frame
theorems. -/
def sampleTable : Table :=
  ⟨["Athlete", "Date", "Sleep"], [[Cell.str "A", Cell.num 1, Cell.num 5]]⟩

/-- A table missing the `Date` column, for the missing-column theorems. -/
def sampleMissing : Table :=
  ⟨["Athlete", "Sleep"], [[Cell.str "A", Cell.num 5]]⟩

/-- C9: trend and z-score computation never mutate the input table — they
work on a copy and the output contains every input column with its per-row
values unchanged (for `compute_trend` the rows are re-sorted, so the input
rows reappear as a permutation carrying their original cells; the z-score
left merge preserves row order exactly), with only the derived column
appended; and both are pure functions, so running either twice on the same
table yields identical output (definitionally).  The freshness hypotheses —
no temporary label (`_prev`, `_diff`, `mean`, `std`) and no derived label is
already a column — hold for every canonical table. -/
theorem trend_zscore_no_mutation (t : Table) (metric : String)
    (hwf : wfTable t) (hp : "_prev" ∉ t.cols) (hd : "_diff" ∉ t.cols)
    (hmean : "mean" ∉ t.cols) (hstd : "std" ∉ t.cols)
    (htr : metric ++ "_Trend" ∉ t.cols) (hz : metric ++ "_ZScore" ∉ t.cols) :
    ((compute_trend t metric).cols = t.cols ++ [metric ++ "_Trend"] ∧
      List.Perm ((compute_trend t metric).rows.map (List.take t.cols.length)) t.rows ∧
      compute_trend t metric = compute_trend t metric) ∧
    ((calculate_zscore_by_date t metric ["Date"]).cols = t.cols ++ [metric ++ "_ZScore"] ∧
      (calculate_zscore_by_date t metric ["Date"]).rows.map (List.take t.cols.length) = t.rows ∧
      calculate_zscore_by_date t metric ["Date"] =
        calculate_zscore_by_date t metric ["Date"]) := by
  obtain ⟨⟨a1, a2⟩, b1, b2⟩ := trend_zscore_frame t metric hwf hp hd hmean hstd htr hz
  exact ⟨⟨a1, a2, rfl⟩, b1, b2, rfl⟩

/-- Witness for C9 on a concrete one-row table. -/
theorem trend_zscore_no_mutation_witness :
    ((compute_trend sampleTable "Sleep").cols = sampleTable.cols ++ ["Sleep" ++ "_Trend"] ∧
      List.Perm ((compute_trend sampleTable "Sleep").rows.map
        (List.take sampleTable.cols.length)) sampleTable.rows ∧
      compute_trend sampleTable "Sleep" = compute_trend sampleTable "Sleep") ∧
    ((calculate_zscore_by_date sampleTable "Sleep" ["Date"]).cols =
        sampleTable.cols ++ ["Sleep" ++ "_ZScore"] ∧
      (calculate_zscore_by_date sampleTable "Sleep" ["Date"]).rows.map
        (List.take sampleTable.cols.length) = sampleTable.rows ∧
      calculate_zscore_by_date sampleTable "Sleep" ["Date"] =
        calculate_zscore_by_date sampleTable "Sleep" ["Date"]) :=
  trend_zscore_no_mutation sampleTable "Sleep"
    (by intro r hr; fin_cases hr; rfl) (by decide) (by decide) (by decide) (by decide)
    (by decide) (by decide)

/-- C10: when a column the derivation needs is missing (`Athlete`, `Date` or
the metric for trends; the metric or the grouping column for z-scores), both
passes return without raising (the embedding is total) and hand back the
table with the derived column appended and entirely null.  The freshness
hypotheses say the derived label is not already a column, so that "appended"
describes the output shape exactly. -/
theorem missing_column_null_derived (t : Table) (metric : String)
    (htr : metric ++ "_Trend" ∉ t.cols) (hz : metric ++ "_ZScore" ∉ t.cols) :
    (¬("Athlete" ∈ t.cols ∧ "Date" ∈ t.cols ∧ metric ∈ t.cols) →
      compute_trend t metric =
        ⟨t.cols ++ [metric ++ "_Trend"],
         appendColCells t.rows (List.replicate t.rows.length Cell.null)⟩) ∧
    (metric ∉ t.cols ∨ "Date" ∉ t.cols →
      calculate_zscore_by_date t metric ["Date"] =
        ⟨t.cols ++ [metric ++ "_ZScore"],
         appendColCells t.rows (List.replicate t.rows.length Cell.null)⟩) := by
  obtain ⟨cols, rows⟩ := t
  constructor
  · intro hmiss
    have hall : (["Athlete", "Date", metric].all fun c =>
        (Table.mk cols rows).cols.contains c) = false := by
      rw [Bool.eq_false_iff]
      intro hT
      apply hmiss
      simpa [List.all_eq_true] using hT
    simp only [compute_trend, hall, Bool.not_false, if_true]
    rw [setCol_fresh _ _ _ htr]
  · intro hmiss
    by_cases hm1 : metric ∈ cols
    · have hDate : "Date" ∉ cols := by
        rcases hmiss with h | h
        · exact absurd hm1 h
        · exact h
      have c1 : (Table.mk cols rows).cols.contains metric = true := by simp [hm1]
      have c2 : (["Date"].all fun c => (Table.mk cols rows).cols.contains c) = false := by
        simp [hDate]
      simp only [calculate_zscore_by_date, c1, c2, Bool.not_true, Bool.not_false,
        Bool.false_eq_true, if_false, if_true]
      rw [setCol_fresh _ _ _ hz]
    · have c1 : (Table.mk cols rows).cols.contains metric = false := by simp [hm1]
      simp only [calculate_zscore_by_date, c1, Bool.not_false, if_true]
      rw [setCol_fresh _ _ _ hz]

/-- Witness for C10 on a table without a `Date` column. -/
theorem missing_column_null_derived_witness :
    compute_trend sampleMissing "Sleep" =
      ⟨sampleMissing.cols ++ ["Sleep" ++ "_Trend"],
       appendColCells sampleMissing.rows
         (List.replicate sampleMissing.rows.length Cell.null)⟩ ∧
    calculate_zscore_by_date sampleMissing "Sleep" ["Date"] =
      ⟨sampleMissing.cols ++ ["Sleep" ++ "_ZScore"],
       appendColCells sampleMissing.rows
         (List.replicate sampleMissing.rows.length Cell.null)⟩ :=
  ⟨(missing_column_null_derived sampleMissing "Sleep" (by decide) (by decide)).1 (by decide),
   (missing_column_null_derived sampleMissing "Sleep" (by decide) (by decide)).2 (by decide)⟩

end
